import Mathlib

/-!
Verification of the agentkit repository against its specification.

The development shallowly embeds the Python sources:
  * `src/agentkit/cli.py` (command dispatch and exit codes),
  * `src/plugins/text_processor/` (the bundled plugin: metadata block,
    exports block, and the eight tool functions).

The modules `agentkit/loader.py`, `agentkit/env_utils.py` and
`agentkit/depcheck.py` are imported by `cli.py` but are not part of the
source tree; their behaviour (plugin loading, environment-variable
reconciliation, dependency aggregation) is modelled from the
specification, and every such definition carries a doc comment starting
with `Modelled from the spec:`.

Conventions of the embedding:
  * Python strings are `String` / `List Char`; all scanning functions are
    structurally recursive so that concrete instances reduce in the kernel.
  * Python floats are modelled as exact rationals (`ℚ`); `round` is
    modelled as round-half-to-even, matching CPython on these values.
  * The process environment is an association list `Env`; operations that
    touch the environment are written in state-passing style, returning
    the (unchanged) environment together with the list of names read.
  * Fallible Python code returns `Except String α`; `raise ValueError`
    becomes `Except.error`.
-/

/-! ## Basic character and string utilities -/

/-- The set of characters matched by Python `\s` on `str` (and stripped by
`str.strip()` / split by `str.split()`); ASCII whitespace plus the Unicode
whitespace code points recognised by CPython. -/
def pyIsSpace (c : Char) : Bool :=
  c = ' ' || c = '\t' || c = '\n' || c = '\x0d' || c = '\x0b' || c = '\x0c' ||
  c = '\x1c' || c = '\x1d' || c = '\x1e' || c = '\x1f' || c = '\u0085' ||
  c = '\u00a0' || c = '\u1680' ||
  ('\u2000' ≤ c && c ≤ '\u200a') ||
  c = '\u2028' || c = '\u2029' || c = '\u202f' || c = '\u205f' || c = '\u3000'

/-- `list.dropWhile` from the back: removes the trailing run of characters
satisfying `p`.  Together with a front `dropWhile` this models
Python `str.strip()`. -/
def dropTrailing (p : Char → Bool) (l : List Char) : List Char :=
  (l.reverse.dropWhile p).reverse

/-- Python `str.strip()` (no arguments): remove leading and trailing
whitespace. -/
def pyStrip (l : List Char) : List Char :=
  dropTrailing pyIsSpace (l.dropWhile pyIsSpace)

/-- Python `str.strip(chars)`: remove leading and trailing characters drawn
from `chars`. -/
def pyStripChars (chars : List Char) (l : List Char) : List Char :=
  dropTrailing (fun c => chars.contains c) (l.dropWhile (fun c => chars.contains c))

/-- Replace every maximal run of characters satisfying `p` by the single
character `rep`; the flag records whether the previous character was in a
run.  With `p = pyIsSpace`, `rep = ' '` and flag `false` this is
`re.sub(r"\s+", " ", text)`. -/
def collapseRuns (p : Char → Bool) (rep : Char) : List Char → Bool → List Char
  | [], _ => []
  | c :: rest, inRun =>
    if p c then
      if inRun then collapseRuns p rep rest true
      else rep :: collapseRuns p rep rest true
    else c :: collapseRuns p rep rest false

/-- Number of maximal runs of characters satisfying `p`; models
`len(re.findall(r"[.!?]+", text))` when `p` accepts `.`, `!`, `?`. -/
def runCount (p : Char → Bool) : List Char → Bool → Nat
  | [], _ => 0
  | c :: rest, inRun =>
    if p c then
      if inRun then runCount p rest true else runCount p rest true + 1
    else runCount p rest false

/-- `re.split` on a character class used as a run (`[.!?]+`-style): the
pieces between maximal runs of characters satisfying `p`, including empty
pieces at the ends when the text starts or ends with such a run. -/
def splitRuns (p : Char → Bool) : List Char → List Char → Bool → List (List Char)
  | [], cur, _ => [cur.reverse]
  | c :: rest, cur, inRun =>
    if p c then
      if inRun then splitRuns p rest cur true
      else cur.reverse :: splitRuns p rest [] true
    else splitRuns p rest (c :: cur) false

/-- Split at every character satisfying `p`, keeping empty pieces. -/
def splitEvery (p : Char → Bool) : List Char → List (List Char)
  | [] => [[]]
  | c :: rest =>
    if p c then [] :: splitEvery p rest
    else
      match splitEvery p rest with
      | [] => [[c]]
      | piece :: pieces => (c :: piece) :: pieces

/-- Python `str.split()` with no arguments: split on whitespace runs and
drop the empty pieces. -/
def pySplitWs (l : List Char) : List (List Char) :=
  (splitEvery pyIsSpace l).filter (· ≠ [])

/-- Does `pat` occur at the head of `l`? -/
def headMatch : List Char → List Char → Bool
  | [], _ => true
  | _ :: _, [] => false
  | p :: ps, c :: cs => p = c && headMatch ps cs

/-- Python `str.replace(pat, rep)` for a non-empty `pat`: replace every
non-overlapping occurrence, scanning left to right.  The fuel argument is
an upper bound on the number of scan steps; each step consumes at least
one character, so `fuel = l.length` suffices. -/
def replaceFuel (pat rep : List Char) : Nat → List Char → List Char
  | 0, l => l
  | _ + 1, [] => []
  | fuel + 1, c :: cs =>
    if headMatch pat (c :: cs) then
      rep ++ replaceFuel pat rep fuel (List.drop pat.length (c :: cs))
    else c :: replaceFuel pat rep fuel cs

/-- Python `str.replace(pat, rep)` for non-empty `pat`. -/
def pyReplace (pat rep l : List Char) : List Char :=
  replaceFuel pat rep l.length l

/-- Python `str.split(sep)` for a non-empty separator `sep`: cut at every
non-overlapping occurrence, scanning left to right, keeping empty pieces.
Fuel as in `replaceFuel`. -/
def splitSubFuel (pat : List Char) : Nat → List Char → List Char → List (List Char)
  | 0, cur, l => [cur.reverse ++ l]
  | _ + 1, cur, [] => [cur.reverse]
  | fuel + 1, cur, c :: cs =>
    if headMatch pat (c :: cs) then
      cur.reverse :: splitSubFuel pat fuel [] (List.drop pat.length (c :: cs))
    else splitSubFuel pat fuel (c :: cur) cs

/-- Python `str.split(sep)` for non-empty `sep`. -/
def pySplitOn (pat l : List Char) : List (List Char) :=
  splitSubFuel pat l.length [] l

/-- Lexicographic comparison of character lists by code point; this is the
order Python uses to compare `str` values. -/
def charListLe : List Char → List Char → Bool
  | [], _ => true
  | _ :: _, [] => false
  | a :: as, b :: bs =>
    if a.toNat < b.toNat then true
    else if b.toNat < a.toNat then false
    else charListLe as bs

/-- Python string order as a relation on `String`. -/
def strLe (a b : String) : Prop := charListLe a.data b.data = true

instance : DecidableRel strLe := fun a b => by
  unfold strLe; infer_instance

/-- Python `int(s)` on a string: optional surrounding whitespace, optional
sign, then base-10 digits with single underscores allowed only between
digits.  `none` models `int` raising `ValueError`.  (Only ASCII digits are
modelled.)  The flag records whether the previous character was a digit. -/
def parseDigits : List Char → Nat → Bool → Option Nat
  | [], acc, lastDigit => if lastDigit then some acc else none
  | c :: cs, acc, lastDigit =>
    if c.isDigit then parseDigits cs (acc * 10 + (c.toNat - 48)) true
    else if c = '_' then
      if lastDigit then parseDigits cs acc false else none
    else none

/-- Python `int(s)`. -/
def pyParseInt (s : String) : Option Int :=
  match pyStrip s.data with
  | '+' :: rest => (parseDigits rest 0 false).map (fun n => (n : Int))
  | '-' :: rest => (parseDigits rest 0 false).map (fun n => -(n : Int))
  | rest => (parseDigits rest 0 false).map (fun n => (n : Int))

/-- Round-half-to-even to an integer, the rounding CPython `round` uses. -/
def roundHalfEven (q : ℚ) : ℤ :=
  let f := q.floor
  let r := q - f
  if r < 1/2 then f
  else if 1/2 < r then f + 1
  else if f % 2 = 0 then f else f + 1

/-- Python `round(x, d)` on a non-negative number of digits, with floats
modelled as exact rationals. -/
def pyRound (q : ℚ) (d : Nat) : ℚ :=
  (roundHalfEven (q * 10 ^ d) : ℚ) / 10 ^ d

/-! ## The bundled `text_processor` plugin: `utils.py` -/

/-- The first pattern string appearing in the quote-normalisation step of
`clean_text` (utils.py line 21): the code there reads
`cleaned.replace('"', '"').replace('"', '"')`, replacing a straight double
quote by itself. -/
def doubleQuotePat : List Char := ['"']

/-- The pattern string of the second quote-normalisation step of
`clean_text` (utils.py line 22).  As the file stands, that line parses as
a single call `cleaned.replace(S, "\x27")` whose pattern `S` is this
fourteen-character string. -/
def oddQuotePat : List Char :=
  [',', ' ', '"', '\x27', '"', ')', '.', 'r', 'e', 'p', 'l', 'a', 'c', 'e', '(']

/-- `clean_text` from `utils.py`: collapse whitespace runs to single
spaces, strip, then apply the two `replace` calls of the
quote-normalisation block exactly as they appear in the file. -/
def clean_text_chars (l : List Char) : List Char :=
  let collapsed := collapseRuns pyIsSpace ' ' l false
  let stripped := pyStrip collapsed
  let step1 := pyReplace doubleQuotePat doubleQuotePat (pyReplace doubleQuotePat doubleQuotePat stripped)
  pyReplace oddQuotePat ['\x27'] step1

/-- `clean_text` on `String`. -/
def clean_text (s : String) : String :=
  String.mk (clean_text_chars s.data)

/-- Word characters for the `\w` class, restricted to ASCII (the Python
original also matches non-ASCII letters). -/
def isWordChar (c : Char) : Bool :=
  c.isAlphanum || c = '_'

/-- `count_words` from `utils.py`:
`len(re.findall(r"\b\w+\b", text.lower()))`, i.e. the number of maximal
runs of word characters in the lower-cased text. -/
def count_words (s : String) : Nat :=
  runCount isWordChar (s.data.map Char.toLower) false

/-- The maximal runs of word characters in a character list, in order;
models `re.findall(r"\b\w+\b", ...)` as a list of matches. -/
def wordRuns (l : List Char) : List (List Char) :=
  (splitEvery (fun c => !isWordChar c) l).filter (· ≠ [])

/-- The stop-word list of `extract_keywords` in `utils.py`. -/
def stopWords : List String :=
  ["the", "a", "an", "and", "or", "but", "in", "on", "at", "to", "for",
   "of", "with", "by", "is", "are", "was", "were", "be", "been", "have",
   "has", "had", "do", "does", "did", "will", "would", "could", "should",
   "this", "that", "these", "those", "i", "you", "he", "she", "it", "we",
   "they", "me", "him", "her", "us", "them", "my", "your", "his", "its",
   "our", "their"]

/-- Build the word-frequency table of `extract_keywords`: a Python dict in
insertion order, counting words longer than two characters that are not
stop words. -/
def freqTable : List String → List (String × Nat) → List (String × Nat)
  | [], table => table
  | w :: ws, table =>
    if 2 < w.length && !stopWords.contains w then
      match List.lookup w table with
      | some _ =>
        freqTable ws (table.map (fun e => if e.1 == w then (e.1, e.2 + 1) else e))
      | none => freqTable ws (table ++ [(w, 1)])
    else freqTable ws table

/-- Stable descending comparison by frequency, as produced by Python
`sorted(..., key=lambda x: x[1], reverse=True)`. -/
def freqGe (a b : String × Nat) : Prop := b.2 ≤ a.2

instance : DecidableRel freqGe := fun a b => by
  unfold freqGe; infer_instance

/-- `extract_keywords` from `utils.py`: clean the text, collect word runs
of the lower-cased result, build the frequency table, sort it by
descending frequency (stable) and return the first `max_keywords` words. -/
def extract_keywords (s : String) (maxKeywords : Nat) : List String :=
  let cleaned := clean_text_chars s.data
  let words := (wordRuns (cleaned.map Char.toLower)).map String.mk
  let table := freqTable words []
  ((List.insertionSort freqGe table).take maxKeywords).map (·.1)

/-! ## The bundled `text_processor` plugin: `formatters.py` -/

/-- One step of the paragraph-accumulating loop of `format_as_markdown`:
state is (formatted lines so far, current paragraph). -/
def mdStep (state : List String × List String) (line : List Char) : List String × List String :=
  let stripped := pyStrip line
  if stripped = [] then
    if state.2 ≠ [] then
      (state.1 ++ [String.intercalate " " state.2, ""], [])
    else state
  else (state.1, state.2 ++ [String.mk stripped])

/-- `format_as_markdown` from `formatters.py`. -/
def format_as_markdown (text title : String) : String :=
  let lines := pySplitOn ['\n'] text.data
  let state := lines.foldl mdStep (["# " ++ title, ""], [])
  let formatted :=
    if state.2 ≠ [] then state.1 ++ [String.intercalate " " state.2] else state.1
  String.intercalate "\n" formatted

/-- HTML escaping of `format_as_html`:
`.replace('&','&amp;').replace('<','&lt;').replace('>','&gt;')`. -/
def htmlEscape (l : List Char) : List Char :=
  pyReplace ['>'] "&gt;".data
    (pyReplace ['<'] "&lt;".data
      (pyReplace ['&'] "&amp;".data l))

/-- The style block of the HTML template in `format_as_html` (braces that
are literal text in the Python f-string are written `\x7b`/`\x7d`). -/
def htmlStyle : String :=
  "    <style>\n        body \x7b\n            font-family: Arial, sans-serif;\n            max-width: 800px;\n            margin: 0 auto;\n            padding: 20px;\n            line-height: 1.6;\n        \x7d\n        h1 \x7b\n            color: #333;\n            border-bottom: 2px solid #eee;\n            padding-bottom: 10px;\n        \x7d\n        p \x7b\n            margin-bottom: 15px;\n        \x7d\n    </style>"

/-- `format_as_html` from `formatters.py`: escape, split into paragraphs
on blank lines, collapse newline runs inside a paragraph to spaces, and
interpolate into the fixed HTML template. -/
def format_as_html (text title : String) : String :=
  let escaped := htmlEscape text.data
  let paragraphs := ((pySplitOn ['\n', '\n'] escaped).map pyStrip).filter (· ≠ [])
  let htmlParagraphs := paragraphs.map (fun p =>
    "    <p>" ++ String.mk (collapseRuns (· = '\n') ' ' p false) ++ "</p>")
  "<!DOCTYPE html>\n<html lang=\"en\">\n<head>\n    <meta charset=\"UTF-8\">\n    <meta name=\"viewport\" content=\"width=device-width, initial-scale=1.0\">\n    <title>" ++ title ++ "</title>\n" ++ htmlStyle ++ "\n</head>\n<body>\n    <h1>" ++ title ++ "</h1>\n" ++ String.intercalate "\n" htmlParagraphs ++ "\n</body>\n</html>"

/-- The bullet marker of `format_as_list` as it appears in the file (the
three code points U+00E2 U+20AC U+00A2, a mis-encoded bullet). -/
def bulletMarker : String := "â€¢ "

/-- `format_as_list` from `formatters.py`. -/
def format_as_list (text listType : String) : String :=
  let lines := ((pySplitOn ['\n'] text.data).map pyStrip).filter (· ≠ [])
  let formatted :=
    if listType = "numbered" then
      lines.enum.map (fun e => toString (e.1 + 1) ++ ". " ++ String.mk e.2)
    else
      lines.map (fun line => bulletMarker ++ String.mk line)
  String.intercalate "\n" formatted

/-! ## Process environment -/

/-- The process environment, as an association list from variable names to
values. -/
def Env : Type := List (String × String)

/-- The one environment variable the plugin declares and reads. -/
def maxLengthVar : String := "TEXT_PROCESSOR_MAX_LENGTH"

/-- `os.getenv(name, default)`: read a variable by standard name lookup.
In state-passing style the environment is returned unchanged together
with the singleton trace of names read. -/
def getenvOp (name deflt : String) (env : Env) : String × Env × List String :=
  (((List.lookup name env).getD deflt), env, [name])

/-! ## The bundled `text_processor` plugin: `core.py` -/

/-- The result record of `analyze_text`.  The two fields that are floats
in Python are exact rationals here. -/
structure Analysis where
  character_count : Nat
  character_count_no_spaces : Nat
  word_count : Nat
  line_count : Nat
  paragraph_count : Nat
  sentence_count : Nat
  average_word_length : ℚ
  reading_time_minutes : ℚ

/-- Sentence delimiters of the `[.!?]+` class used in `core.py`. -/
def isSentenceDelim (c : Char) : Bool :=
  c = '.' || c = '!' || c = '?'

/-- The statistics body of `analyze_text`, reached when the length guard
passes.  Field by field from `core.py` lines 22-48; `0.3` and the float
divisions are modelled as exact rationals. -/
def analysisOf (text : String) : Analysis :=
  let l := text.data
  let words := pySplitWs l
  let avg : ℚ :=
    if words = [] then 0
    else ((words.map (fun w => ((pyStripChars ".,!?;:".data w).length : ℚ))).sum) / words.length
  { character_count := l.length
    character_count_no_spaces := (pyReplace [' '] [] l).length
    word_count := count_words text
    line_count := (pySplitOn ['\n'] l).length
    paragraph_count := (((pySplitOn ['\n', '\n'] l).map pyStrip).filter (· ≠ [])).length
    sentence_count := runCount isSentenceDelim l false
    average_word_length := pyRound avg 2
    reading_time_minutes := pyRound ((count_words text : ℚ) / 200) 1 }

/-- `analyze_text` from `core.py`, in state-passing style: read
`TEXT_PROCESSOR_MAX_LENGTH` (default `"10000"`), convert it with `int`
(`none` becomes a raised `ValueError`), raise when the text is longer than
the limit, and otherwise return the statistics record.  The environment
comes back unchanged alongside the read trace. -/
def analyze_text_op (text : String) (env : Env) :
    Except String Analysis × Env × List String :=
  let read := getenvOp maxLengthVar "10000" env
  let result : Except String Analysis :=
    match pyParseInt read.1 with
    | none => .error "invalid literal for int() with base 10"
    | some maxLength =>
      if (text.data.length : Int) > maxLength then
        .error "Text too long."
      else .ok (analysisOf text)
  (result, read.2)

/-- The value computed by `analyze_text` for a given environment. -/
def analyze_text (env : Env) (text : String) : Except String Analysis :=
  (analyze_text_op text env).1

/-- The sentence list of `summarize_text`: split on runs of `.`, `!`, `?`,
strip each piece, drop the empty ones. -/
def sentencesOf (text : String) : List (List Char) :=
  ((splitRuns isSentenceDelim text.data [] false).map pyStrip).filter (· ≠ [])

/-- Stable descending comparison of `(score, sentence)` pairs, as produced
by Python `scored_sentences.sort(reverse=True)` on tuples. -/
def scoredGe (a b : ℚ × List Char) : Prop :=
  b.1 < a.1 ∨ (a.1 = b.1 ∧ charListLe b.2 a.2 = true)

instance : DecidableRel scoredGe := fun a b => by
  unfold scoredGe; infer_instance

/-- The sentence-collection loop at the end of `summarize_text`: walk the
sentences in original order, keep those that made the top list, and stop
as soon as `max_sentences` of them have been collected. -/
def collectSummary : List (List Char) → List (List Char) → Nat → Nat → List (List Char)
  | [], _, _, _ => []
  | s :: rest, top, taken, maxSentences =>
    if top.contains s then
      if maxSentences ≤ taken + 1 then [s]
      else s :: collectSummary rest top (taken + 1) maxSentences
    else collectSummary rest top taken maxSentences

/-- The summary body of `summarize_text`, reached when the length guard
passes: return the text unchanged when it has no more than
`max_sentences` sentences, otherwise score, sort, select and re-join.
The position threshold `i < len(sentences) * 0.3` is modelled as
`10 * i < 3 * n`. -/
def summaryOf (text : String) (maxSentences : Nat) : String :=
  let sentences := sentencesOf text
  if sentences.length ≤ maxSentences then text
  else
    let n := sentences.length
    let scored := sentences.enum.map (fun e =>
      (((pySplitWs e.2).length : ℚ) * (if 10 * e.1 < 3 * n then 1 else 1/2), e.2))
    let top := ((List.insertionSort scoredGe scored).take maxSentences).map (·.2)
    let summary := collectSummary sentences top 0 maxSentences
    String.intercalate ". " (summary.map String.mk) ++ "."

/-- `summarize_text` from `core.py`, in state-passing style; the length
guard is identical to the one in `analyze_text`. -/
def summarize_text_op (text : String) (maxSentences : Nat) (env : Env) :
    Except String String × Env × List String :=
  let read := getenvOp maxLengthVar "10000" env
  let result : Except String String :=
    match pyParseInt read.1 with
    | none => .error "invalid literal for int() with base 10"
    | some maxLength =>
      if (text.data.length : Int) > maxLength then
        .error "Text too long."
      else .ok (summaryOf text maxSentences)
  (result, read.2)

/-- The value computed by `summarize_text` for a given environment. -/
def summarize_text (env : Env) (text : String) (maxSentences : Nat) :
    Except String String :=
  (summarize_text_op text maxSentences env).1

/-- State-passing form of a tool whose body never touches the process
environment (the six pure tools of the plugin). -/
def pureToolOp {α : Type} (value : α) (env : Env) : α × Env × List String :=
  (value, env, [])

/-! ## The plugin metadata and exports blocks (`__init__.py`) -/

/-- A raw environment-variable declaration as it appears in a metadata
dictionary; `none` in a field means the key is absent from the dict. -/
structure EnvVarDecl where
  description : Option String
  default : Option String
  required : Option Bool
deriving DecidableEq

/-- A raw plugin metadata dictionary; `none` in a field means the key is
absent. -/
structure ModuleInfo where
  name : Option String
  description : Option String
  author : Option String
  version : Option String
  platform : Option String
  python_requires : Option String
  dependencies : Option (List String)
  environment_variables : Option (List (String × EnvVarDecl))
deriving DecidableEq

/-- A raw exports block: `none` when the module has no exports block,
otherwise the list of names of the tool callables it registers. -/
structure ModuleExports where
  tools : Option (List String)
deriving DecidableEq

/-- The `_module_info` dictionary of `src/plugins/text_processor/__init__.py`. -/
def module_info : ModuleInfo :=
  { name := some "Text Processor"
    description := some "Advanced text processing utilities with multiple modules"
    author := some "AgentKit Team"
    version := some "1.0.0"
    platform := some "any"
    python_requires := some ">=3.10"
    dependencies := some ["pydantic>=2.0.0"]
    environment_variables := some
      [("TEXT_PROCESSOR_MAX_LENGTH",
        { description := some "Maximum text length to process"
          default := some "10000"
          required := some false })] }

/-- The `_module_exports` dictionary of
`src/plugins/text_processor/__init__.py`, by tool name. -/
def module_exports : ModuleExports :=
  { tools := some
      ["analyze_text", "summarize_text", "clean_text", "count_words",
       "extract_keywords", "format_as_markdown", "format_as_html",
       "format_as_list"] }

/-- Modelled from the spec: the plugin bundle contract of sections 3 and 6,
the part checked against a candidate module.  The metadata block must carry
name, version, description, author, platform, a runtime-version
constraint, a dependencies sequence and an environment-variables mapping
whose entries each specify at least `description` and `required`; the
exports block must list the tool callables. -/
def bundleContract (info : ModuleInfo) (exports : ModuleExports) : Bool :=
  info.name.isSome && info.version.isSome && info.description.isSome &&
  info.author.isSome && info.platform.isSome && info.python_requires.isSome &&
  info.dependencies.isSome &&
  (match info.environment_variables with
   | none => false
   | some vars => vars.all (fun kv => kv.2.description.isSome && kv.2.required.isSome)) &&
  (match exports.tools with
   | none => false
   | some _ => true)

/-! ## The CLI front-end (`cli.py`) -/

/-- The exit value of `cmd_validate` in `cli.py`, as a function of the
lists produced by the environment manager: `0` when both the missing-
variable list and the conflict list are empty, else `1`. -/
def cmd_validate_exit (missing conflicts : List String) : Int :=
  if missing = [] ∧ conflicts = [] then 0 else 1

/-- The exit value of `cmd_check` in `cli.py`: `1` when either list is
non-empty, else `0`. -/
def cmd_check_exit (missing conflicts : List String) : Int :=
  if missing ≠ [] ∨ conflicts ≠ [] then 1 else 0

/-- How a dispatched command function finishes: a Python return value
(`none` is Python `None`), a `KeyboardInterrupt`, or any other uncaught
exception. -/
inductive CmdOutcome where
  | ok (r : Option Int)
  | interrupted
  | raised
deriving DecidableEq

/-- Python `r or 0` applied to a command result of type `Optional[int]`. -/
def pyOrZero : Option Int → Int
  | none => 0
  | some v => if v = 0 then 0 else v

/-- The return value of `main` in `cli.py` once a command was dispatched:
`args.func(args) or 0` inside `try`, with `KeyboardInterrupt` and every
other exception mapped to `1`. -/
def mainResult : CmdOutcome → Int
  | .ok r => pyOrZero r
  | .interrupted => 1
  | .raised => 1

/-! ## Plugin registry, loader, environment manager, dependency extractor

`agentkit/loader.py`, `agentkit/env_utils.py` and `agentkit/depcheck.py`
are not in the source tree; the definitions below are modelled from the
specification (sections 3, 4.1, 4.2, 4.3). -/

/-- Modelled from the spec: a validated environment-variable specification
(section 3, EnvVarSpec).  An empty string in `description` or `default`
plays the role of an absent / empty value for the merge rule. -/
structure EnvSpec where
  description : String
  default : String
  required : Bool
deriving DecidableEq

/-- Modelled from the spec: the validated data of one loaded plugin
(section 3, PluginMetadata restricted to the fields the claims need). -/
structure PluginEntry where
  identifier : String
  envVars : List (String × EnvSpec)
  dependencies : List String
  toolNames : List String
deriving DecidableEq

/-- Modelled from the spec: a registry, the ordered plugin list produced
by one load cycle (section 3; iteration order is registration order). -/
def Registry : Type := List PluginEntry

/-- Modelled from the spec: a candidate bundle found under the plugin
root: either one whose import or metadata validation fails (with the
candidate name and a failure reason), or a valid bundle (section 4.1). -/
inductive Candidate where
  | broken (name reason : String)
  | valid (p : PluginEntry)
deriving DecidableEq

/-- Modelled from the spec: the loader state: the registry built so far
(plugins and tool table) and the recorded per-plugin failures
(section 4.1, steps 2-6). -/
structure LoadState where
  plugins : List PluginEntry
  tools : List (String × String)
  failures : List (String × String)
deriving DecidableEq

/-- Modelled from the spec: register the tools of one plugin under
`"<identifier>.<tool_name>"`; a duplicate qualified name keeps the
first-registered entry and records a warning (section 4.1, step 5). -/
def registerTools (p : PluginEntry) (tools : List (String × String)) :
    List (String × String) × List (String × String) :=
  p.toolNames.foldl
    (fun acc tn =>
      let q := p.identifier ++ "." ++ tn
      if (List.lookup q acc.1).isSome then
        (acc.1, acc.2 ++ [(q, "duplicate qualified tool name")])
      else (acc.1 ++ [(q, p.identifier)], acc.2))
    (tools, [])

/-- Modelled from the spec: process one candidate (section 4.1, steps
2-5): a broken candidate is recorded as a failure and skipped; a valid one
is rejected when its identifier collides with a registered plugin, and
otherwise registered together with its tools. -/
def loadStep (s : LoadState) (c : Candidate) : LoadState :=
  match c with
  | .broken n r => { s with failures := s.failures ++ [(n, r)] }
  | .valid p =>
    if s.plugins.any (fun q => q.identifier == p.identifier) then
      { s with failures := s.failures ++ [(p.identifier, "duplicate identifier")] }
    else
      let reg := registerTools p s.tools
      { plugins := s.plugins ++ [p], tools := reg.1, failures := s.failures ++ reg.2 }

/-- Modelled from the spec: `load_plugins` over an enumerated candidate
list (section 4.1): fold the per-candidate step from the empty state. -/
def load_plugins (cs : List Candidate) : LoadState :=
  cs.foldl loadStep { plugins := [], tools := [], failures := [] }

/-- The registry-only part of `loadStep`; failures never feed back into
the registry, so the plugin and tool tables evolve as a function of
themselves alone. -/
def regStep (s : List PluginEntry × List (String × String)) (c : Candidate) :
    List PluginEntry × List (String × String) :=
  match c with
  | .broken _ _ => s
  | .valid p =>
    if s.1.any (fun q => q.identifier == p.identifier) then s
    else
      let reg := registerTools p s.2
      (s.1 ++ [p], reg.1)

/-- Modelled from the spec: the "first wins, required escalates" merge of
two declarations of one variable (section 4.3): `required` is the OR,
`description` and `default` keep the earlier non-empty value. -/
def mergeSpec (old new : EnvSpec) : EnvSpec :=
  { description := if old.description == "" then new.description else old.description
    default := if old.default == "" then new.default else old.default
    required := old.required || new.required }

/-- Modelled from the spec: fold one declaration into the accumulated
name-to-spec table: merge into the first entry carrying the name, or
append a fresh entry. -/
def insertMerge : List (String × EnvSpec) → String × EnvSpec → List (String × EnvSpec)
  | [], kv => [kv]
  | e :: rest, kv =>
    if e.1 == kv.1 then (e.1, mergeSpec e.2 kv.2) :: rest
    else e :: insertMerge rest kv

/-- Modelled from the spec: `get_all_env_vars` (section 4.3): fold every
declaration of every plugin, in registry iteration order, through the
merge rule. -/
def get_all_env_vars (reg : Registry) : List (String × EnvSpec) :=
  (reg.flatMap (·.envVars)).foldl insertMerge []

/-- All declarations of one variable name, in registry iteration order. -/
def declsOf (reg : Registry) (name : String) : List EnvSpec :=
  ((reg.flatMap (·.envVars)).filter (fun kv => kv.1 == name)).map (·.2)

/-- The first non-empty string in a list, or `""`. -/
def firstNonEmpty : List String → String
  | [] => ""
  | s :: rest => if s == "" then firstNonEmpty rest else s

/-- Modelled from the spec: `validate_env_vars` (section 4.3) in
state-passing style: the names of merged-required variables that are
absent or empty in the process environment, in declaration order; the
trace records the variable names whose values were read. -/
def validate_env_vars_op (reg : Registry) (env : Env) :
    List String × Env × List String :=
  let req := (get_all_env_vars reg).filter (fun kv => kv.2.required)
  ((req.filter (fun kv => ((List.lookup kv.1 env).getD "") == "")).map (·.1),
   env, req.map (·.1))

/-- Do two of the declarations differ materially (different `required`
flags, or different non-empty defaults)?  Section 4.3's conflict
criterion. -/
def materiallyDifferent (a b : EnvSpec) : Bool :=
  a.required != b.required ||
  (!(a.default == "") && !(b.default == "") && !(a.default == b.default))

/-- Does any pair drawn from the list differ materially? -/
def anyPairDifferent : List EnvSpec → Bool
  | [] => false
  | s :: rest => rest.any (materiallyDifferent s) || anyPairDifferent rest

/-- The identifiers of the plugins declaring a variable name. -/
def declaringPlugins (reg : Registry) (name : String) : List String :=
  (reg.filter (fun p => p.envVars.any (fun kv => kv.1 == name))).map (·.identifier)

/-- Modelled from the spec: `check_conflicts` (section 4.3): one
description per variable name declared with materially different specs by
different plugins, naming the variable and the declaring plugins. -/
def check_conflicts (reg : Registry) : List String :=
  (((reg.flatMap (·.envVars)).map (·.1)).dedup.filter
      (fun n => anyPairDifferent (declsOf reg n))).map
    (fun n => "Variable " ++ n ++ " declared by: " ++
      String.intercalate ", " (declaringPlugins reg n))

/-- Modelled from the spec: the template text written by
`generate_env_template` (section 4.3): per declaring plugin, in
registration order, each variable not yet emitted gets a comment line with
its merged description and required/optional marker, then `NAME=default`. -/
def templateLinesFor (reg : Registry) (p : PluginEntry) (emitted : List String) :
    List String × List String :=
  p.envVars.foldl
    (fun acc kv =>
      if acc.2.contains kv.1 then acc
      else
        match List.lookup kv.1 (get_all_env_vars reg) with
        | none => acc
        | some s =>
          (acc.1 ++
            ["# " ++ s.description ++ (if s.required then " (required)" else " (optional)"),
             kv.1 ++ "=" ++ s.default],
           acc.2 ++ [kv.1]))
    ([], emitted)

/-- Modelled from the spec: the full template text. -/
def generate_env_template_text (reg : Registry) : String :=
  String.intercalate "\n"
    (reg.foldl (fun acc p =>
      let r := templateLinesFor reg p acc.2
      (acc.1 ++ r.1, r.2)) (([] : List String), ([] : List String))).1

/-- Modelled from the spec: the human-readable summary of
`get_plugin_env_summary` (section 4.3): per plugin the variables it
declares with a required/optional annotation, then overall totals. -/
def get_plugin_env_summary (reg : Registry) : String :=
  String.intercalate "\n"
    ((reg.flatMap (fun p =>
        (p.identifier ++ ":") ::
        p.envVars.map (fun kv =>
          "  " ++ kv.1 ++ (if kv.2.required then " (required)" else " (optional)")))) ++
     ["Total: " ++ toString (get_all_env_vars reg).length ++ " variables"])

/-- Modelled from the spec: per-plugin dependency extraction (section 4.2,
declared strategy; every plugin in a registry already carries its declared
list, and the inferred fallback concerns plugins with no declared
dependencies). -/
def extract_dependencies_from_plugin (p : PluginEntry) : List String :=
  p.dependencies

/-- Modelled from the spec: the combined dependency set of the whole
registry (section 4.2, `aggregate`). -/
def allDeps (reg : Registry) : List String :=
  reg.flatMap extract_dependencies_from_plugin

/-- Modelled from the spec: the deduplicated, lexicographically sorted
requirement list of `generate_requirements` (section 4.2). -/
def requirementLines (reg : Registry) : List String :=
  List.insertionSort strLe (allDeps reg).dedup

/-- Modelled from the spec: `generate_requirements` serialises the lines,
one requirement specifier per line. -/
def generate_requirements (reg : Registry) : String :=
  String.intercalate "\n" (requirementLines reg)

/-! ## CLI commands over the environment -/

/-- The registry produced by loading the bundled plugin tree: the single
`text_processor` plugin with its declared variable, dependency and tools,
as validated from `module_info` and `module_exports`. -/
def bundledRegistry : Registry :=
  [{ identifier := "text_processor"
     envVars := [("TEXT_PROCESSOR_MAX_LENGTH",
       { description := "Maximum text length to process"
         default := "10000"
         required := false })]
     dependencies := ["pydantic>=2.0.0"]
     toolNames := ["analyze_text", "summarize_text", "clean_text", "count_words",
                   "extract_keywords", "format_as_markdown", "format_as_html",
                   "format_as_list"] }]

/-- `cmd_validate` from `cli.py` in state-passing style: compute the
missing-required list (reading the environment through the manager) and
the conflict list, and return the exit value together with the final
environment and read trace. -/
def cmd_validate_op (reg : Registry) (env : Env) : Int × Env × List String :=
  let v := validate_env_vars_op reg env
  (cmd_validate_exit v.1 (check_conflicts reg), v.2)

/-- `cmd_check` from `cli.py` in state-passing style. -/
def cmd_check_op (reg : Registry) (env : Env) : Int × Env × List String :=
  let v := validate_env_vars_op reg env
  (cmd_check_exit v.1 (check_conflicts reg), v.2)

/-- `cmd_generate` from `cli.py` in state-passing style: the template text
is computed from the registry alone (writing it to disk is the file-system
side effect, not an environment access). -/
def cmd_generate_op (reg : Registry) (env : Env) : String × Env × List String :=
  (generate_env_template_text reg, env, [])

/-- `cmd_summary` from `cli.py` in state-passing style. -/
def cmd_summary_op (reg : Registry) (env : Env) : String × Env × List String :=
  (get_plugin_env_summary reg, env, [])

/-- The listing text of `cmd_list` from `cli.py`: built from registry
metadata only. -/
def cmd_list_text (reg : Registry) : String :=
  String.intercalate "\n"
    (reg.flatMap (fun p =>
      [p.identifier,
       "   Tools: " ++ String.intercalate ", " p.toolNames,
       "   Env vars: " ++ String.intercalate ", " (p.envVars.map (·.1))]))

/-- `cmd_list` from `cli.py` in state-passing style. -/
def cmd_list_op (reg : Registry) (env : Env) : String × Env × List String :=
  (cmd_list_text reg, env, [])

/-! ## Auxiliary definitions for the statements and proofs -/

/-- Merge a list of declarations into an optional accumulated spec, the
order-sensitive core of the merge rule. -/
def mergeInto : Option EnvSpec → List EnvSpec → Option EnvSpec
  | o, [] => o
  | none, s :: rest => mergeInto (some s) rest
  | some t, s :: rest => mergeInto (some (mergeSpec t s)) rest

/-- Totality of the Python string order. -/
def charListLe_total : ∀ a b : List Char, charListLe a b = true ∨ charListLe b a = true := by
  intro a
  induction a with
  | nil => intro b; left; rfl
  | cons x xs ih =>
    intro b
    cases b with
    | nil => right; rfl
    | cons y ys =>
      simp only [charListLe]
      rcases Nat.lt_trichotomy x.toNat y.toNat with h | h | h
      · left; simp [h]
      · have h2 : ¬ x.toNat < y.toNat := by omega
        have h3 : ¬ y.toNat < x.toNat := by omega
        simpa [h2, h3, h] using ih ys
      · right; simp [h, Nat.lt_asymm h]

/-- Transitivity of the Python string order. -/
def charListLe_trans : ∀ a b c : List Char,
    charListLe a b = true → charListLe b c = true → charListLe a c = true := by
  intro a
  induction a with
  | nil => intro b c _ _; rfl
  | cons x xs ih =>
    intro b c h1 h2
    cases b with
    | nil => simp [charListLe] at h1
    | cons y ys =>
      cases c with
      | nil => simp [charListLe] at h2
      | cons z zs =>
        simp only [charListLe] at h1 h2 ⊢
        by_cases hxy : x.toNat < y.toNat <;> by_cases hyz : y.toNat < z.toNat
        · rw [if_pos (show x.toNat < z.toNat by omega)]
        · by_cases hzy : z.toNat < y.toNat
          · rw [if_neg hyz, if_pos hzy] at h2
            exact absurd h2 (by simp)
          · rw [if_pos (show x.toNat < z.toNat by omega)]
        · by_cases hyx : y.toNat < x.toNat
          · rw [if_neg hxy, if_pos hyx] at h1
            exact absurd h1 (by simp)
          · rw [if_pos (show x.toNat < z.toNat by omega)]
        · by_cases hyx : y.toNat < x.toNat
          · rw [if_neg hxy, if_pos hyx] at h1
            exact absurd h1 (by simp)
          · by_cases hzy : z.toNat < y.toNat
            · rw [if_neg hyz, if_pos hzy] at h2
              exact absurd h2 (by simp)
            · rw [if_neg hxy, if_neg hyx] at h1
              rw [if_neg hyz, if_neg hzy] at h2
              rw [if_neg (show ¬ x.toNat < z.toNat by omega),
                  if_neg (show ¬ z.toNat < x.toNat by omega)]
              exact ih ys zs h1 h2

instance : IsTotal String strLe :=
  ⟨fun a b => charListLe_total a.data b.data⟩

instance : IsTrans String strLe :=
  ⟨fun a b c h1 h2 => charListLe_trans a.data b.data c.data h1 h2⟩

/-- The input exhibiting the broken quote-normalisation of `clean_text`:
pre-composing the odd pattern with enough context that one replacement
recreates the pattern. -/
def c9Input : String := ", \", \"\x27\").replace(\").replace("

/-- A registry with one plugin declaring one required variable (the
`API_KEY` scenario of spec section 8). -/
def demoRequiredRegistry : Registry :=
  [{ identifier := "demo"
     envVars := [("API_KEY", { description := "API key", default := "", required := true })]
     dependencies := []
     toolNames := [] }]

/-- Two plugins declaring the same variable with different `required`
flags and different fields, to exercise the merge rule. -/
def c6DemoRegistry : Registry :=
  [{ identifier := "alpha"
     envVars := [("SHARED_TIMEOUT", { description := "", default := "", required := false })]
     dependencies := []
     toolNames := [] },
   { identifier := "beta"
     envVars := [("SHARED_TIMEOUT", { description := "Timeout seconds", default := "30", required := true })]
     dependencies := []
     toolNames := [] }]

/-- The two-plugin registry of the requirements-aggregation example:
plugin A requires `foo` and `bar`, plugin B requires `bar` and `baz`. -/
def c7ExampleRegistry : Registry :=
  [{ identifier := "pluginA", envVars := [], dependencies := ["foo", "bar"], toolNames := [] },
   { identifier := "pluginB", envVars := [], dependencies := ["bar", "baz"], toolNames := [] }]

/-! ## Theorems -/

/-- The default limit string parses to the default limit. -/
theorem pyParseInt_default : pyParseInt "10000" = some 10000 := by decide

/-- Claim C1: for every invocation of the CLI `validate` command and every
invocation of the CLI `check` command, the exit code is `0` exactly when
both the missing-required list and the conflict list are empty, and `1`
when either list is non-empty. -/
theorem cli_validate_check_exit_codes (reg : Registry) (env : Env) :
    ((cmd_validate_op reg env).1 = 0 ↔
      (validate_env_vars_op reg env).1 = [] ∧ check_conflicts reg = []) ∧
    ((validate_env_vars_op reg env).1 ≠ [] ∨ check_conflicts reg ≠ [] →
      (cmd_validate_op reg env).1 = 1) ∧
    ((cmd_check_op reg env).1 = 0 ↔
      (validate_env_vars_op reg env).1 = [] ∧ check_conflicts reg = []) ∧
    ((validate_env_vars_op reg env).1 ≠ [] ∨ check_conflicts reg ≠ [] →
      (cmd_check_op reg env).1 = 1) ∧
    mainResult (.ok (some (cmd_validate_op reg env).1)) = (cmd_validate_op reg env).1 ∧
    mainResult (.ok (some (cmd_check_op reg env).1)) = (cmd_check_op reg env).1 := by
  simp only [cmd_validate_op, cmd_check_op, cmd_validate_exit, cmd_check_exit]
  by_cases hm : (validate_env_vars_op reg env).1 = [] <;>
    by_cases hc : check_conflicts reg = [] <;>
      simp [hm, hc, mainResult, pyOrZero]

/-- Witness for C1: with the bundled plugin and an empty environment both
lists are empty and `validate` exits `0`; with a plugin requiring
`API_KEY` and an empty environment, `check` exits `1`. -/
theorem cli_validate_check_exit_codes_witness :
    (cmd_validate_op bundledRegistry []).1 = 0 ∧
    (cmd_check_op demoRequiredRegistry []).1 = 1 :=
  ⟨(cli_validate_check_exit_codes bundledRegistry []).1.mpr ⟨by decide, by decide⟩,
   (cli_validate_check_exit_codes demoRequiredRegistry []).2.2.2.1
     (Or.inl (by decide))⟩

/-- Claim C2: a dispatched command that raises an uncaught exception makes
`main` return `1` (`KeyboardInterrupt` also maps to `1`); a command that
completes returns its own result, with `None` treated as `0`. -/
theorem main_exit_mapping :
    mainResult .raised = 1 ∧ mainResult .interrupted = 1 ∧
    mainResult (.ok none) = 0 ∧ ∀ v : Int, mainResult (.ok (some v)) = v := by
  refine ⟨rfl, rfl, rfl, fun v => ?_⟩
  simp only [mainResult, pyOrZero]
  by_cases h : v = 0 <;> simp [h]

/-- Claim C3: the bundled `text_processor` plugin satisfies the plugin
bundle contract: its metadata block carries name, version, description,
author, platform, a runtime-version constraint, a dependencies sequence
and an environment-variables mapping whose entries all specify at least
`description` and `required`, and its exports block lists the tool
callables to register. -/
theorem text_processor_satisfies_contract :
    bundleContract module_info module_exports = true ∧
    module_exports.tools = some
      ["analyze_text", "summarize_text", "clean_text", "count_words",
       "extract_keywords", "format_as_markdown", "format_as_html",
       "format_as_list"] :=
  ⟨rfl, rfl⟩

/-- Claim C9 (counter-evaluation): `clean_text` is not idempotent on the
code as it stands.  The quote-normalisation line of `utils.py` parses as a
replacement of the fourteen-character pattern `oddQuotePat` by a single
quote, and on `c9Input` one pass produces exactly that pattern, which a
second pass then rewrites again. -/
theorem clean_text_not_idempotent :
    clean_text (clean_text c9Input) ≠ clean_text c9Input := by decide

/-- A load step changes the registry part of the state exactly as the
failure-free `regStep` does. -/
theorem loadStep_registry (s : LoadState) (c : Candidate) :
    ((loadStep s c).plugins, (loadStep s c).tools) = regStep (s.plugins, s.tools) c := by
  cases c with
  | broken n r => rfl
  | valid p =>
    simp only [loadStep, regStep]
    by_cases h : s.plugins.any (fun q => q.identifier == p.identifier) <;> simp [h]

/-- Folding load steps evolves the registry part as folding `regStep`. -/
theorem foldl_loadStep_registry (cs : List Candidate) (s : LoadState) :
    ((cs.foldl loadStep s).plugins, (cs.foldl loadStep s).tools) =
      cs.foldl regStep (s.plugins, s.tools) := by
  induction cs generalizing s with
  | nil => rfl
  | cons c rest ih =>
    simp only [List.foldl_cons]
    rw [ih (loadStep s c), loadStep_registry]

/-- Recorded failures are never dropped by later load steps. -/
theorem failures_persist (cs : List Candidate) (s : LoadState)
    (x : String × String) (hx : x ∈ s.failures) :
    x ∈ (cs.foldl loadStep s).failures := by
  induction cs generalizing s with
  | nil => exact hx
  | cons c rest ih =>
    refine ih (loadStep s c) ?_
    cases c with
    | broken n r => exact List.mem_append_left _ hx
    | valid p =>
      simp only [loadStep]
      by_cases h : s.plugins.any (fun q => q.identifier == p.identifier) <;>
        simp [h, List.mem_append_left, hx]

/-- Claim C5: loader fault isolation: a candidate whose import or metadata
validation fails is recorded as a per-plugin load failure and excluded
from the registry, and the remaining candidates produce exactly the
registry they would produce if the broken candidate were absent. -/
theorem loader_fault_isolation (pre post : List Candidate) (n r : String) :
    (load_plugins (pre ++ Candidate.broken n r :: post)).plugins =
      (load_plugins (pre ++ post)).plugins ∧
    (load_plugins (pre ++ Candidate.broken n r :: post)).tools =
      (load_plugins (pre ++ post)).tools ∧
    (n, r) ∈ (load_plugins (pre ++ Candidate.broken n r :: post)).failures := by
  unfold load_plugins
  rw [List.foldl_append, List.foldl_append, List.foldl_cons]
  set s1 := pre.foldl loadStep { plugins := [], tools := [], failures := [] } with hs1
  have hreg : ((post.foldl loadStep (loadStep s1 (.broken n r))).plugins,
               (post.foldl loadStep (loadStep s1 (.broken n r))).tools) =
              ((post.foldl loadStep s1).plugins, (post.foldl loadStep s1).tools) := by
    rw [foldl_loadStep_registry, foldl_loadStep_registry]
    rfl
  have hmem : (n, r) ∈ (post.foldl loadStep (loadStep s1 (.broken n r))).failures := by
    refine failures_persist post _ _ ?_
    exact List.mem_append_right _ (List.mem_singleton.mpr rfl)
  exact ⟨congrArg Prod.fst hreg, congrArg Prod.snd hreg, hmem⟩

/-- Looking up a name after merging one declaration into the table. -/
theorem lookup_insertMerge (acc : List (String × EnvSpec)) (k : String)
    (s : EnvSpec) (n : String) :
    List.lookup n (insertMerge acc (k, s)) =
      if n = k then
        some (match List.lookup n acc with | some t => mergeSpec t s | none => s)
      else List.lookup n acc := by
  induction acc with
  | nil =>
    by_cases h : n = k
    · subst h
      simp [insertMerge, List.lookup]
    · have hb : (n == k) = false := by simpa using h
      simp [insertMerge, List.lookup, hb, h]
  | cons e rest ih =>
    obtain ⟨ek, ev⟩ := e
    by_cases hek : ek = k
    · subst hek
      simp only [insertMerge, beq_self_eq_true, if_true]
      by_cases h : n = ek
      · subst h
        simp [List.lookup]
      · have hb : (n == ek) = false := by simpa using h
        simp [List.lookup, hb, h]
    · have hbek : (ek == k) = false := by simpa using hek
      simp only [insertMerge, hbek, Bool.false_eq_true, if_false]
      by_cases h : n = ek
      · subst h
        have hb : (n == k) = false := by simpa using hek
        simp [List.lookup, hek]
      · have hbn : (n == ek) = false := by simpa using h
        simp only [List.lookup, hbn]
        exact ih

/-- Looking up a name after folding a declaration list into the table. -/
theorem lookup_foldl_insertMerge (ds : List (String × EnvSpec))
    (acc : List (String × EnvSpec)) (n : String) :
    List.lookup n (ds.foldl insertMerge acc) =
      mergeInto (List.lookup n acc) ((ds.filter (fun kv => kv.1 == n)).map (·.2)) := by
  induction ds generalizing acc with
  | nil =>
    cases h : List.lookup n acc <;> simp [h, mergeInto]
  | cons kv rest ih =>
    obtain ⟨k, s⟩ := kv
    simp only [List.foldl_cons]
    rw [ih (insertMerge acc (k, s)), lookup_insertMerge]
    by_cases h : n = k
    · subst h
      simp only [List.filter_cons, beq_self_eq_true, if_true, if_pos rfl,
        List.map_cons]
      cases hacc : List.lookup n acc <;> simp [mergeInto]
    · have hkn : ¬ k = n := fun e => h e.symm
      have hb : (k == n) = false := by simpa using hkn
      simp only [List.filter_cons, hb, Bool.false_eq_true, if_false, if_neg h]

/-- `mergeInto` from a present accumulator is a fold of the merge. -/
theorem mergeInto_some (ds : List EnvSpec) (t : EnvSpec) :
    mergeInto (some t) ds = some (ds.foldl mergeSpec t) := by
  induction ds generalizing t with
  | nil => rfl
  | cons s rest ih => simpa [mergeInto] using ih (mergeSpec t s)

/-- The `required` flag of a merged declaration list is the OR of all
declared flags. -/
theorem foldl_mergeSpec_required (ds : List EnvSpec) (t : EnvSpec) :
    (ds.foldl mergeSpec t).required = (t.required || ds.any (·.required)) := by
  induction ds generalizing t with
  | nil => simp
  | cons s rest ih =>
    simp only [List.foldl_cons, List.any_cons]
    rw [ih (mergeSpec t s)]
    simp [mergeSpec, Bool.or_assoc]

/-- The description of a merged declaration list is the first non-empty
declared description. -/
theorem foldl_mergeSpec_description (ds : List EnvSpec) (t : EnvSpec) :
    (ds.foldl mergeSpec t).description =
      (if t.description == "" then firstNonEmpty (ds.map (·.description))
       else t.description) := by
  induction ds generalizing t with
  | nil =>
    by_cases h : t.description = "" <;> simp [firstNonEmpty, h]
  | cons s rest ih =>
    simp only [List.foldl_cons, List.map_cons]
    rw [ih (mergeSpec t s)]
    by_cases h : t.description = ""
    · simp [mergeSpec, h, firstNonEmpty]
    · have hb : (t.description == "") = false := by simp [h]
      simp [mergeSpec, hb, firstNonEmpty]

/-- The default of a merged declaration list is the first non-empty
declared default. -/
theorem foldl_mergeSpec_default (ds : List EnvSpec) (t : EnvSpec) :
    (ds.foldl mergeSpec t).default =
      (if t.default == "" then firstNonEmpty (ds.map (·.default))
       else t.default) := by
  induction ds generalizing t with
  | nil =>
    by_cases h : t.default = "" <;> simp [firstNonEmpty, h]
  | cons s rest ih =>
    simp only [List.foldl_cons, List.map_cons]
    rw [ih (mergeSpec t s)]
    by_cases h : t.default = ""
    · simp [mergeSpec, h, firstNonEmpty]
    · have hb : (t.default == "") = false := by simp [h]
      simp [mergeSpec, hb, firstNonEmpty]

/-- Claim C6: when several plugins declare the same variable name,
`get_all_env_vars` merges them with `required` the OR of all declarations
(so declaration order cannot lower it) and `description` / `default`
taken from the first declaration, in registry iteration order, with a
non-empty value for the respective field. -/
theorem get_all_env_vars_merge_rule (reg : Registry) (name : String)
    (h : 2 ≤ (declsOf reg name).length) :
    List.lookup name (get_all_env_vars reg) =
      some { description := firstNonEmpty ((declsOf reg name).map (·.description))
             default := firstNonEmpty ((declsOf reg name).map (·.default))
             required := (declsOf reg name).any (·.required) } := by
  have hlk := lookup_foldl_insertMerge (reg.flatMap (·.envVars)) [] name
  have hds : ((reg.flatMap (·.envVars)).filter (fun kv => kv.1 == name)).map (·.2) =
      declsOf reg name := rfl
  rw [hds] at hlk
  simp only [List.lookup] at hlk
  rw [get_all_env_vars] at *
  cases hd : declsOf reg name with
  | nil => rw [hd] at h; simp at h
  | cons d ds =>
    rw [hd] at hlk
    rw [hlk]
    show mergeInto (some d) ds = _
    rw [mergeInto_some]
    refine congrArg some ?_
    have hr := foldl_mergeSpec_required ds d
    have hde := foldl_mergeSpec_description ds d
    have hdf := foldl_mergeSpec_default ds d
    cases hfd : ds.foldl mergeSpec d
    rw [hfd] at hr hde hdf
    simp only at hr hde hdf
    simp only [List.map_cons, List.any_cons, firstNonEmpty]
    rw [hr, hde, hdf]

/-- Witness for C6: two plugins declare `SHARED_TIMEOUT`; the first one
declares it optional with empty description and default, the second one
required with a description and default — the merged spec escalates
`required` and takes the second plugin's non-empty fields. -/
theorem get_all_env_vars_merge_rule_witness :
    2 ≤ (declsOf c6DemoRegistry "SHARED_TIMEOUT").length ∧
    List.lookup "SHARED_TIMEOUT" (get_all_env_vars c6DemoRegistry) =
      some { description := "Timeout seconds", default := "30", required := true } := by
  refine ⟨by decide, ?_⟩
  rw [get_all_env_vars_merge_rule c6DemoRegistry "SHARED_TIMEOUT" (by decide)]
  decide

/-- Claim C7: requirements generation is deduplicated, lexicographically
sorted and deterministic: over any registry the requirement lines contain
every declared requirement specifier exactly once, in sorted order; on the
two-plugin example requiring `foo`,`bar` and `bar`,`baz` the output lines
are `bar`, `baz`, `foo`. -/
theorem generate_requirements_sorted_dedup :
    (∀ reg : Registry,
      (requirementLines reg).Nodup ∧
      List.Sorted strLe (requirementLines reg) ∧
      ∀ s, s ∈ requirementLines reg ↔ s ∈ allDeps reg) ∧
    requirementLines c7ExampleRegistry = ["bar", "baz", "foo"] ∧
    generate_requirements c7ExampleRegistry = "bar\nbaz\nfoo" := by
  refine ⟨fun reg => ⟨?_, ?_, fun s => ?_⟩, by decide, by decide⟩
  · exact (List.perm_insertionSort strLe (allDeps reg).dedup).symm.nodup
      (List.nodup_dedup _)
  · exact List.sorted_insertionSort strLe _
  · exact ((List.perm_insertionSort strLe (allDeps reg).dedup).mem_iff).trans
      List.mem_dedup

/-- Under the C8/C10 environment hypothesis, the limit lookup parses to
`m`. -/
theorem maxlen_parse (env : Env) (m : Int)
    (hEnv : (List.lookup maxLengthVar env = none ∧ m = 10000) ∨
      (∃ s, List.lookup maxLengthVar env = some s ∧ pyParseInt s = some m)) :
    pyParseInt ((List.lookup maxLengthVar env).getD "10000") = some m := by
  rcases hEnv with ⟨h1, h2⟩ | ⟨s, hs, hp⟩
  · rw [h1, h2]
    exact pyParseInt_default
  · rw [hs]
    simpa using hp

/-- Claim C8: with `TEXT_PROCESSOR_MAX_LENGTH` unset (limit 10000) or
parsing as an integer `m`, and `max_sentences` between 1 and 10,
`analyze_text` and `summarize_text` raise `ValueError` exactly when the
text is longer than `m`, and return normally on all shorter inputs. -/
theorem analyze_summarize_raise_iff_too_long (env : Env) (text : String)
    (m : Int) (maxS : Nat)
    (hEnv : (List.lookup maxLengthVar env = none ∧ m = 10000) ∨
      (∃ s, List.lookup maxLengthVar env = some s ∧ pyParseInt s = some m))
    (hlo : 1 ≤ maxS) (hhi : maxS ≤ 10) :
    ((∃ e, analyze_text env text = .error e) ↔ (text.length : Int) > m) ∧
    ((∃ e, summarize_text env text maxS = .error e) ↔ (text.length : Int) > m) := by
  have hp := maxlen_parse env m hEnv
  constructor
  · simp only [analyze_text, analyze_text_op, getenvOp]
    rw [hp]
    by_cases hl : (text.length : Int) > m
    · simp [hl]
    · simp [hl]
  · simp only [summarize_text, summarize_text_op, getenvOp]
    rw [hp]
    by_cases hl : (text.length : Int) > m
    · simp [hl]
    · simp [hl]

/-- Witness for C8: an unset variable, the text `"hi"` and
`max_sentences = 3`: both tools return normally. -/
theorem analyze_summarize_raise_iff_too_long_witness :
    ((List.lookup maxLengthVar ([] : Env) = none ∧ (10000 : Int) = 10000) ∧
      1 ≤ 3 ∧ 3 ≤ 10) ∧
    (¬ ∃ e, analyze_text [] "hi" = .error e) ∧
    (¬ ∃ e, summarize_text [] "hi" 3 = .error e) := by
  have h := analyze_summarize_raise_iff_too_long [] "hi" 10000 3
    (Or.inl ⟨rfl, rfl⟩) (by decide) (by decide)
  refine ⟨⟨⟨rfl, rfl⟩, by decide, by decide⟩, ?_, ?_⟩
  · intro he
    exact absurd (h.1.mp he) (by decide)
  · intro he
    exact absurd (h.2.mp he) (by decide)

/-- Claim C10: `summarize_text` is the identity on short inputs: when the
text is within the configured limit and splitting it on runs of `.`, `!`,
`?` yields at most `max_sentences` non-empty trimmed sentences, the text
comes back unchanged. -/
theorem summarize_identity_on_short_inputs (env : Env) (text : String)
    (maxS : Nat) (m : Int)
    (hEnv : (List.lookup maxLengthVar env = none ∧ m = 10000) ∨
      (∃ s, List.lookup maxLengthVar env = some s ∧ pyParseInt s = some m))
    (hLen : (text.length : Int) ≤ m)
    (hCount : (sentencesOf text).length ≤ maxS) :
    summarize_text env text maxS = .ok text := by
  have hp := maxlen_parse env m hEnv
  simp only [summarize_text, summarize_text_op, getenvOp]
  rw [hp]
  show (if (text.data.length : Int) > m then Except.error "Text too long."
        else Except.ok (summaryOf text maxS)) = Except.ok text
  rw [if_neg (show ¬ (text.data.length : Int) > m from not_lt.mpr hLen)]
  unfold summaryOf
  rw [if_pos hCount]

/-- Witness for C10: `"Hello world. Bye."` has two sentences, so with
`max_sentences = 3` it is returned unchanged. -/
theorem summarize_identity_on_short_inputs_witness :
    ((("Hello world. Bye." : String).length : Int) ≤ 10000 ∧
      (sentencesOf "Hello world. Bye.").length ≤ 3) ∧
    summarize_text [] "Hello world. Bye." 3 = .ok "Hello world. Bye." :=
  ⟨⟨by decide, by decide⟩,
   summarize_identity_on_short_inputs [] "Hello world. Bye." 3 10000
     (Or.inl ⟨rfl, rfl⟩) (by decide) (by decide)⟩

/-- Claim C4: no operation writes to the process environment: every tool
call and every CLI command (over the bundled registry) returns the
environment unchanged, and the only names ever read are
`TEXT_PROCESSOR_MAX_LENGTH` (for the two length-guarded tools; every
other operation reads nothing). -/
theorem no_env_writes :
    (∀ env text, (analyze_text_op text env).2.1 = env ∧
      ∀ n ∈ (analyze_text_op text env).2.2, n = maxLengthVar) ∧
    (∀ env text maxS, (summarize_text_op text maxS env).2.1 = env ∧
      ∀ n ∈ (summarize_text_op text maxS env).2.2, n = maxLengthVar) ∧
    (∀ env text, (pureToolOp (clean_text text) env).2.1 = env ∧
      (pureToolOp (clean_text text) env).2.2 = []) ∧
    (∀ env text, (pureToolOp (count_words text) env).2.1 = env ∧
      (pureToolOp (count_words text) env).2.2 = []) ∧
    (∀ env text k, (pureToolOp (extract_keywords text k) env).2.1 = env ∧
      (pureToolOp (extract_keywords text k) env).2.2 = []) ∧
    (∀ env text title, (pureToolOp (format_as_markdown text title) env).2.1 = env ∧
      (pureToolOp (format_as_markdown text title) env).2.2 = []) ∧
    (∀ env text title, (pureToolOp (format_as_html text title) env).2.1 = env ∧
      (pureToolOp (format_as_html text title) env).2.2 = []) ∧
    (∀ env text listType, (pureToolOp (format_as_list text listType) env).2.1 = env ∧
      (pureToolOp (format_as_list text listType) env).2.2 = []) ∧
    (∀ env, (cmd_generate_op bundledRegistry env).2.1 = env ∧
      (cmd_generate_op bundledRegistry env).2.2 = []) ∧
    (∀ env, (cmd_validate_op bundledRegistry env).2.1 = env ∧
      (cmd_validate_op bundledRegistry env).2.2 = []) ∧
    (∀ env, (cmd_summary_op bundledRegistry env).2.1 = env ∧
      (cmd_summary_op bundledRegistry env).2.2 = []) ∧
    (∀ env, (cmd_list_op bundledRegistry env).2.1 = env ∧
      (cmd_list_op bundledRegistry env).2.2 = []) ∧
    (∀ env, (cmd_check_op bundledRegistry env).2.1 = env ∧
      (cmd_check_op bundledRegistry env).2.2 = []) := by
  refine ⟨fun env text => ⟨rfl, ?_⟩, fun env text maxS => ⟨rfl, ?_⟩,
    fun env text => ⟨rfl, rfl⟩, fun env text => ⟨rfl, rfl⟩,
    fun env text k => ⟨rfl, rfl⟩, fun env text title => ⟨rfl, rfl⟩,
    fun env text title => ⟨rfl, rfl⟩, fun env text listType => ⟨rfl, rfl⟩,
    fun env => ⟨rfl, rfl⟩, fun env => ⟨rfl, rfl⟩, fun env => ⟨rfl, rfl⟩,
    fun env => ⟨rfl, rfl⟩, fun env => ⟨rfl, rfl⟩⟩
  · simp [analyze_text_op, getenvOp]
  · simp [summarize_text_op, getenvOp]
